import Mathlib

/-!
Verification development for the IMSKOS repository.

Part I embeds the adaptive RAG workflow of src/app.py: the routing
decision (IntelligentRouter.route / AdaptiveRAGWorkflow.route_question),
the two retrieval nodes (retrieve, wiki_search), the generation stage
(IntelligentRouter.generate_response) and the orchestrator
(AdaptiveRAGWorkflow.execute) that streams the compiled LangGraph graph
and absorbs exceptions.

Part II embeds the FastAPI backend scaffold under src/backend: the
request/response schemas (app/models/schemas.py), the mock query
endpoint (app/api/v1/query.py) and the cached settings accessor
(app/core/config.py).

External collaborators (the Groq LLM calls, the Astra DB retriever and
the Wikipedia wrapper) are opaque fallible functions; a raised Python
exception is modeled as an Except.error carrying its str(e) message.
-/

/-- A retrieved passage. Mirrors the langchain Document as used by
src/app.py: the workflow only ever reads page_content. -/
structure Doc where
  page_content : String
  deriving Repr, DecidableEq

/-- The external collaborators of the workflow, each fallible:
classify is IntelligentRouter.route (structured-output LLM call
returning the datasource string), retrieveDocs is retriever.invoke,
wikiInvoke is wiki.invoke (returns the page text), and genChain is
IntelligentRouter.generation_chain.invoke taking the formatted context
and the question. -/
structure Providers where
  classify : String → Except String String
  retrieveDocs : String → Except String (List Doc)
  wikiInvoke : String → Except String String
  genChain : String → String → Except String String

/-- The context block built by IntelligentRouter.generate_response
(src/app.py, list branch): at most the first five documents of the
bundle, each labeled with its 1-based position as
"Document i:" followed by the passage, joined by blank lines. -/
def formatContext (documents : List Doc) : String :=
  String.intercalate "\n\n"
    ((documents.take 5).enum.map
      (fun p => "Document " ++ toString (p.1 + 1) ++ ":\n" ++ p.2.page_content))

/-- IntelligentRouter.generate_response: formats the context and invokes
the generation chain with the context and the question. -/
def generate_response (P : Providers) (question : String) (documents : List Doc) :
    Except String String :=
  P.genChain (formatContext documents) question

/-- AdaptiveRAGWorkflow.route_question: asks the classifier for a
datasource and maps it onto the two graph edges — "wiki_search" exactly
when the classifier said "wiki_search", otherwise "vectorstore".
A classifier exception propagates. -/
def route_question (P : Providers) (question : String) : Except String String :=
  (P.classify question).map
    (fun source => if source = "wiki_search" then "wiki_search" else "vectorstore")

/-- AdaptiveRAGWorkflow.retrieve: invokes the vector-store retriever and
tags the state with route "vectorstore". There is no catch here, so a
retriever exception propagates. -/
def retrieveNode (P : Providers) (question : String) :
    Except String (List Doc × String) :=
  (P.retrieveDocs question).map (fun documents => (documents, "vectorstore"))

/-- The placeholder document substituted by AdaptiveRAGWorkflow.wiki_search
when the Wikipedia call raises. -/
def wikiPlaceholder (e : String) : Doc :=
  ⟨"Wikipedia search returned no results for this query. Error: " ++ e⟩

/-- AdaptiveRAGWorkflow.wiki_search: invokes the Wikipedia tool; on
success wraps the returned text as a one-element document list, on any
exception substitutes the placeholder document. Always tags the state
with route "wikipedia" and never fails. -/
def wikiSearchNode (P : Providers) (question : String) : List Doc × String :=
  match P.wikiInvoke question with
  | .ok docs => ([⟨docs⟩], "wikipedia")
  | .error e => ([wikiPlaceholder e], "wikipedia")

/-- The result dictionary built by AdaptiveRAGWorkflow.execute. route is
Option String because the dict initializes it to None before the stream
loop overwrites it. execution_time holds the measured elapsed time. -/
structure ExecResult where
  route : Option String
  documents : List Doc
  generation : String
  execution_time : Nat
  deriving Repr, DecidableEq

/-- Values stored in the result dictionary of execute. -/
inductive FieldVal where
  | optStr : Option String → FieldVal
  | str : String → FieldVal
  | docs : List Doc → FieldVal
  | num : Nat → FieldVal
  deriving Repr, DecidableEq

/-- Dictionary view of the result of AdaptiveRAGWorkflow.execute: the
Python dict is created with exactly the keys route, documents,
generation and execution_time, and no branch of execute ever writes any
other key, so lookup of any other key (in particular "error") yields
none. -/
def ExecResult.getField (r : ExecResult) : String → Option FieldVal
  | "route" => some (.optStr r.route)
  | "documents" => some (.docs r.documents)
  | "generation" => some (.str r.generation)
  | "execution_time" => some (.num r.execution_time)
  | _ => none

/-- Tail of the orchestrator after a retrieval node has run and the
stream loop has recorded its documents and route: the generate node
runs; on success the loop copies generation, route and documents from
its output, on an exception the catch-all of execute keeps the recorded
documents but overwrites generation with the error message and route
with the "error" sentinel. tr lists the graph nodes already run. -/
def afterRetrieval (P : Providers) (elapsed : Nat) (question : String)
    (documents : List Doc) (rt : String) (tr : List String) :
    ExecResult × List String :=
  match generate_response P question documents with
  | .error e =>
      ({ route := some "error", documents := documents,
         generation := "Error executing query: " ++ e,
         execution_time := elapsed }, tr ++ ["generate"])
  | .ok gen =>
      ({ route := some rt, documents := documents, generation := gen,
         execution_time := elapsed }, tr ++ ["generate"])

/-- AdaptiveRAGWorkflow.execute over the graph wired by build_graph:
a conditional edge from START through route_question selects exactly one
of the nodes wiki_search (on "wiki_search") or retrieve (on
"vectorstore"), both lead to generate, generate leads to END. The
stream loop records each node output into the result dict; the
surrounding try/except converts any exception raised by a stage into
generation = "Error executing query: " ++ str(e) and route = "error".
elapsed stands for the measured time.time() - start_time, recorded
unconditionally after the loop. The second component is the list of
graph nodes that were invoked, in order (instrumentation of the graph
semantics, not part of the returned dict). -/
def executeT (P : Providers) (elapsed : Nat) (question : String) :
    ExecResult × List String :=
  match route_question P question with
  | .error e =>
      ({ route := some "error", documents := [],
         generation := "Error executing query: " ++ e,
         execution_time := elapsed }, [])
  | .ok dest =>
      if dest = "wiki_search" then
        let out := wikiSearchNode P question
        afterRetrieval P elapsed question out.1 out.2 ["wiki_search"]
      else
        match retrieveNode P question with
        | .error e =>
            ({ route := some "error", documents := [],
               generation := "Error executing query: " ++ e,
               execution_time := elapsed }, ["retrieve"])
        | .ok (documents, rt) =>
            afterRetrieval P elapsed question documents rt ["retrieve"]

/-- The result returned to the caller of AdaptiveRAGWorkflow.execute. -/
def execute (P : Providers) (elapsed : Nat) (question : String) : ExecResult :=
  (executeT P elapsed question).1

/-!
Part II: the FastAPI backend scaffold (src/backend).
-/

/-- QuerySource enum of app/models/schemas.py: the admissible values of
the source field of a query request. -/
inductive QuerySource where
  | auto
  | vector
  | wikipedia
  | web
  deriving Repr, DecidableEq

/-- String value of each QuerySource member (the str enum value). -/
def QuerySource.value : QuerySource → String
  | .auto => "auto"
  | .vector => "vector"
  | .wikipedia => "wikipedia"
  | .web => "web"

/-- Parsing of a raw source string into the QuerySource enum, as pydantic
validation does for the source field: any string other than the four
enum values is a validation error. -/
def parseQuerySource (s : String) : Option QuerySource :=
  if s = "auto" then some .auto
  else if s = "vector" then some .vector
  else if s = "wikipedia" then some .wikipedia
  else if s = "web" then some .web
  else none

/-- Validated QueryOptions of app/models/schemas.py. temperature is the
exact decimal sent on the wire, modeled as a rational. -/
structure QueryOptions where
  top_k : Nat := 5
  temperature : Rat := 0
  hyde : Bool := false
  deriving Repr, DecidableEq

/-- Raw (pre-validation) options payload; absent fields take the model
defaults. -/
structure RawQueryOptions where
  top_k : Option Nat := none
  temperature : Option Rat := none
  hyde : Option Bool := none
  deriving Repr, DecidableEq

/-- Pydantic validation of QueryOptions: top_k must lie in 1..20 and
temperature in 0..2 (the ge/le bounds of the Field declarations). -/
def QueryOptions.validate (raw : RawQueryOptions) : Option QueryOptions :=
  let k := raw.top_k.getD 5
  let t := raw.temperature.getD 0
  if 1 ≤ k ∧ k ≤ 20 ∧ 0 ≤ t ∧ t ≤ 2 then
    some { top_k := k, temperature := t, hyde := raw.hyde.getD false }
  else none

/-- Validated QueryRequest of app/models/schemas.py. -/
structure QueryRequest where
  query : String
  user_id : Option String := none
  source : QuerySource := .auto
  options : QueryOptions := {}
  deriving Repr, DecidableEq

/-- Raw (pre-validation) request body for POST /api/v1/query; absent
fields take the model defaults. -/
structure RawQueryRequest where
  query : String
  user_id : Option String := none
  source : Option String := none
  options : Option RawQueryOptions := none
  deriving Repr, DecidableEq

/-- Pydantic validation of QueryRequest, run by FastAPI on the request
body before the endpoint handler is called: query must have
min_length 1 and max_length 2000 (in characters), source must parse
into the QuerySource enum (defaulting to auto when absent), and the
options sub-model must validate (defaulting when absent). A none result
is the 422 validation rejection. -/
def QueryRequest.validate (raw : RawQueryRequest) : Option QueryRequest :=
  if 1 ≤ raw.query.length ∧ raw.query.length ≤ 2000 then
    match raw.source.elim (some QuerySource.auto) parseQuerySource with
    | none => none
    | some src =>
        match raw.options.elim (some {}) QueryOptions.validate with
        | none => none
        | some opts =>
            some { query := raw.query, user_id := raw.user_id,
                   source := src, options := opts }
  else none

/-- SourceResult of app/models/schemas.py; similarity_score is the exact
decimal of the payload, modeled as a rational. -/
structure SourceResult where
  source_id : String
  similarity_score : Rat
  snippet : String
  url : Option String := none
  deriving Repr, DecidableEq

/-- QueryMetrics of app/models/schemas.py. -/
structure QueryMetrics where
  elapsed_ms : Nat
  tokens : Nat
  embedding_ms : Option Nat := none
  retrieval_ms : Option Nat := none
  llm_ms : Option Nat := none
  deriving Repr, DecidableEq

/-- QueryResponse of app/models/schemas.py. -/
structure QueryResponse where
  id : String
  response : String
  sources : List SourceResult
  metrics : QueryMetrics
  routing_reason : String
  deriving Repr, DecidableEq

/-- The deterministic mock response constant of app/api/v1/query.py. -/
def MOCK_RESPONSE : QueryResponse :=
  { id := "mock-query-0001"
    response := "This is a deterministic mock answer from IMSKOS scaffold."
    sources := [{ source_id := "doc-1"
                  similarity_score := 92 / 100
                  snippet := "Example matched text..."
                  url := some "/storage/docs/doc1.pdf" }]
    metrics := { elapsed_ms := 75, tokens := 34, embedding_ms := some 15
                 retrieval_ms := some 35, llm_ms := some 25 }
    routing_reason := "mock: scaffold route to vector (demo)" }

/-- The POST /api/v1/query handler execute_query of app/api/v1/query.py,
applied to an already-validated request. uuidHex stands for the fresh
uuid4 hex prefix and elapsedMs for the measured int((time.time() -
start_time) * 1000); both are runtime effects, not request data. The
handler returns the mock response with a fresh id, the measured elapsed
time plus the 75 ms mock processing constant, and a routing_reason that
interpolates the value of the request's source field. -/
def execute_query (request : QueryRequest) (uuidHex : String) (elapsedMs : Nat) :
    QueryResponse :=
  { id := "query-" ++ uuidHex
    response := MOCK_RESPONSE.response
    sources := MOCK_RESPONSE.sources
    metrics := { elapsed_ms := elapsedMs + 75
                 tokens := MOCK_RESPONSE.metrics.tokens
                 embedding_ms := MOCK_RESPONSE.metrics.embedding_ms
                 retrieval_ms := MOCK_RESPONSE.metrics.retrieval_ms
                 llm_ms := MOCK_RESPONSE.metrics.llm_ms }
    routing_reason := "mock: scaffold route to " ++ request.source.value ++ " (demo)" }

/-- The endpoint boundary: FastAPI validates the raw body against
QueryRequest first and only calls execute_query on success; an invalid
body is rejected (422) and the handler never runs. -/
def handle_query (raw : RawQueryRequest) (uuidHex : String) (elapsedMs : Nat) :
    Option QueryResponse :=
  (QueryRequest.validate raw).map (fun request => execute_query request uuidHex elapsedMs)

/-- Process environment for the backend: os.getenv by (uppercase)
variable name; pydantic-settings reads names case-insensitively. -/
def Env : Type := String → Option String

/-- Python truthiness of an optional string, as used by the
all([...]) / not checks of Settings.get_mock_status: None and the empty
string are falsy, every other string is truthy. -/
def truthy : Option String → Bool
  | none => false
  | some s => s ≠ ""

/-- The Settings model of app/core/config.py (defaults as declared). -/
structure Settings where
  app_name : String := "IMSKOS API"
  app_version : String := "1.1.0"
  debug : Bool := false
  environment : String := "development"
  supabase_url : Option String := none
  supabase_anon_key : Option String := none
  supabase_service_role_key : Option String := none
  astra_db_application_token : Option String := none
  astra_db_id : Option String := none
  astra_db_region : Option String := none
  groq_api_key : Option String := none
  huggingface_api_key : Option String := none
  openai_api_key : Option String := none
  s3_endpoint : Option String := none
  s3_access_key : Option String := none
  s3_secret_key : Option String := none
  s3_bucket : Option String := none
  upstash_redis_rest_url : Option String := none
  upstash_redis_rest_token : Option String := none
  jwt_secret : Option String := none
  sentry_dsn : Option String := none
  sendgrid_api_key : Option String := none
  slack_webhook_url : Option String := none
  deriving Repr, DecidableEq

/-- Pydantic boolean parsing for the debug field: the accepted truthy
and falsy spellings, case-insensitively; anything else is a validation
error. -/
def parsePydanticBool (s : String) : Option Bool :=
  let l := s.toLower
  if l = "1" ∨ l = "true" ∨ l = "yes" ∨ l = "on" ∨ l = "y" ∨ l = "t" then some true
  else if l = "0" ∨ l = "false" ∨ l = "no" ∨ l = "off" ∨ l = "n" ∨ l = "f" then some false
  else none

/-- Construction of Settings() from the environment (pydantic
BaseSettings): each field is read from its upper-cased variable name,
falling back to the declared default; an unparseable DEBUG value makes
construction fail with a validation error. -/
def Settings.ofEnv (env : Env) : Except String Settings :=
  match (env "DEBUG").map parsePydanticBool with
  | some none => .error "validation error for Settings field debug"
  | od =>
      .ok { app_name := (env "APP_NAME").getD "IMSKOS API"
            app_version := (env "APP_VERSION").getD "1.1.0"
            debug := (od.getD (some false)).getD false
            environment := (env "ENVIRONMENT").getD "development"
            supabase_url := env "SUPABASE_URL"
            supabase_anon_key := env "SUPABASE_ANON_KEY"
            supabase_service_role_key := env "SUPABASE_SERVICE_ROLE_KEY"
            astra_db_application_token := env "ASTRA_DB_APPLICATION_TOKEN"
            astra_db_id := env "ASTRA_DB_ID"
            astra_db_region := env "ASTRA_DB_REGION"
            groq_api_key := env "GROQ_API_KEY"
            huggingface_api_key := env "HUGGINGFACE_API_KEY"
            openai_api_key := env "OPENAI_API_KEY"
            s3_endpoint := env "S3_ENDPOINT"
            s3_access_key := env "S3_ACCESS_KEY"
            s3_secret_key := env "S3_SECRET_KEY"
            s3_bucket := env "S3_BUCKET"
            upstash_redis_rest_url := env "UPSTASH_REDIS_REST_URL"
            upstash_redis_rest_token := env "UPSTASH_REDIS_REST_TOKEN"
            jwt_secret := env "JWT_SECRET"
            sentry_dsn := env "SENTRY_DSN"
            sendgrid_api_key := env "SENDGRID_API_KEY"
            slack_webhook_url := env "SLACK_WEBHOOK_URL" }

/-- Settings.get_mock_status: which services run in mock mode because
their credentials are missing (Python falsiness of the fields). -/
def Settings.get_mock_status (s : Settings) : List (String × Bool) :=
  [("supabase", !(truthy s.supabase_url && truthy s.supabase_anon_key)),
   ("astra_db", !(truthy s.astra_db_application_token && truthy s.astra_db_id)),
   ("groq", !(truthy s.groq_api_key)),
   ("huggingface", !(truthy s.huggingface_api_key)),
   ("redis", !(truthy s.upstash_redis_rest_url && truthy s.upstash_redis_rest_token)),
   ("s3", !(truthy s.s3_endpoint && truthy s.s3_access_key && truthy s.s3_secret_key))]

/-- The lru_cache-decorated get_settings of app/core/config.py as a
state-passing function: the first component of the pair is the value
returned to the caller, the second the cache cell after the call. A
populated cache is returned as-is without re-reading the environment;
an empty cache constructs Settings() and stores it (functools.lru_cache
does not cache a raised exception). -/
def get_settings (cache : Option Settings) (env : Env) :
    Except String Settings × Option Settings :=
  match cache with
  | some s => (.ok s, some s)
  | none =>
      match Settings.ofEnv env with
      | .ok s => (.ok s, some s)
      | .error e => (.error e, none)

/-!
Concrete provider and request fixtures used by counterexamples and
witnesses below.
-/

/-- A provider bundle whose classifier picks the vector store, whose
retriever succeeds, and whose generation call raises. -/
def genFailProviders : Providers :=
  { classify := fun _ => .ok "vectorstore"
    retrieveDocs := fun _ => .ok [⟨"agent memory passage"⟩]
    wikiInvoke := fun _ => .ok "wiki text"
    genChain := fun _ _ => .error "rate limit" }

/-- A provider bundle for a fully successful Wikipedia-routed run. -/
def wikiOkProviders : Providers :=
  { classify := fun _ => .ok "wiki_search"
    retrieveDocs := fun _ => .ok []
    wikiInvoke := fun _ => .ok "Elon Musk is a business magnate."
    genChain := fun _ _ => .ok "He is an entrepreneur." }

/-- A provider bundle where the Wikipedia lookup raises but generation
succeeds. -/
def wikiFailProviders : Providers :=
  { classify := fun _ => .ok "wiki_search"
    retrieveDocs := fun _ => .ok []
    wikiInvoke := fun _ => .error "Page not found"
    genChain := fun _ _ => .ok "I could not find information on that topic." }

/-- A provider bundle whose route classifier raises. -/
def classifyFailProviders : Providers :=
  { classify := fun _ => .error "APIConnectionError: provider unreachable"
    retrieveDocs := fun _ => .ok []
    wikiInvoke := fun _ => .ok "text"
    genChain := fun _ _ => .ok "answer" }

/-- A provider bundle where classification and primary retrieval succeed
but the generation call raises. -/
def retrieveOkGenFailProviders : Providers :=
  { classify := fun _ => .ok "vectorstore"
    retrieveDocs := fun _ => .ok [⟨"Agent memory has several types."⟩]
    wikiInvoke := fun _ => .ok "wiki text"
    genChain := fun _ _ => .error "InternalServerError" }

/-- A provider bundle where classification picks Wikipedia, the lookup
succeeds, and the generation call raises. -/
def wikiOkGenFailProviders : Providers :=
  { classify := fun _ => .ok "wiki_search"
    retrieveDocs := fun _ => .ok []
    wikiInvoke := fun _ => .ok "Wikipedia summary text."
    genChain := fun _ _ => .error "InternalServerError" }

/-- A provider bundle whose classifier returns a value outside the
two-member routing enum. -/
def garbageClassifierProviders : Providers :=
  { classify := fun _ => .ok "web_search"
    retrieveDocs := fun _ => .ok []
    wikiInvoke := fun _ => .ok "text"
    genChain := fun _ _ => .ok "answer" }

/-- A validated backend request forcing the vector source. -/
def vectorRequest : QueryRequest :=
  { query := "What are the types of agent memory?", user_id := none
    source := .vector, options := {} }

/-- A validated backend request forcing the wikipedia source. -/
def wikipediaRequest : QueryRequest :=
  { query := "What are the types of agent memory?", user_id := none
    source := .wikipedia, options := {} }

/-- An environment with no variables set. -/
def emptyEnv : Env := fun _ => none

/-!
Theorems. Each claim theorem carries its claim id.
-/

/-- Helper: the result assembled after a retrieval node always has a
set route and records the elapsed time, whether generation succeeds or
raises. -/
theorem afterRetrieval_wf (P : Providers) (t : Nat) (q : String)
    (documents : List Doc) (rt : String) (tr : List String) :
    (afterRetrieval P t q documents rt tr).1.route.isSome = true ∧
    (afterRetrieval P t q documents rt tr).1.execution_time = t := by
  unfold afterRetrieval
  split <;> simp

/-- C1: for every question and every behavior of the four external
collaborators — including any of them raising — execute returns a
well-formed result: it is a total function into ExecResult (so every
stage exception is absorbed, never propagated to the caller), the
route field is always set to an actual string (never left at its None
initialization), and the measured execution time is recorded. The
documents list and generation string are present by construction of
ExecResult. -/
theorem execute_always_returns_wellformed_result (P : Providers) (elapsed : Nat)
    (question : String) :
    (execute P elapsed question).route.isSome = true ∧
    (execute P elapsed question).execution_time = elapsed := by
  unfold execute executeT
  cases route_question P question with
  | error e => simp
  | ok dest =>
      dsimp only
      split
      · exact afterRetrieval_wf ..
      · cases retrieveNode P question with
        | error e => simp
        | ok out => exact afterRetrieval_wf ..

/-- Helper: the wiki_search node always tags the state with route
"wikipedia", whether the lookup succeeds or raises. -/
theorem wikiSearchNode_route (P : Providers) (q : String) :
    (wikiSearchNode P q).2 = "wikipedia" := by
  unfold wikiSearchNode
  cases P.wikiInvoke q <;> rfl

/-- C2 counterexample: when classification picks the primary branch,
retrieval succeeds and generation then raises, the retrieve node was
visited yet the result's route label is the "error" sentinel, not
"vectorstore" — so the claimed biconditional between the route label
and the branch taken fails on this concrete execution. -/
theorem route_label_not_branch_iff :
    "retrieve" ∈ (executeT genFailProviders 0 "q").2 ∧
    (executeT genFailProviders 0 "q").1.route ≠ some "vectorstore" ∧
    (executeT genFailProviders 0 "q").1.route = some "error" := by decide

/-- C2 (amended): per execution at most one of the two retrieval nodes
runs, and at least one runs whenever classification succeeds; a
"vectorstore" route label implies the retrieve node (and only it) ran
and the documents are exactly the retriever's output, a "wikipedia"
label implies the wiki_search node (and only it) ran and the documents
are exactly that node's bundle; a visited branch yields its own label
or the "error" sentinel and nothing else; and in full: when the
retrieve branch ran and retrieval returned a bundle, the result's
documents are that bundle (also in the error-label case) and the label
is "vectorstore" with the generator's answer exactly when generation
succeeded, while a generation failure gives the "error" label with the
error-descriptive answer; symmetrically, when the wiki_search branch
ran the result's documents are that node's bundle (also in the
error-label case) and the label is "wikipedia" with the generator's
answer exactly when generation succeeded, "error" with the descriptive
answer when it failed. The label overwrite on generation failure is
the one departure from the claim as stated. -/
theorem exactly_one_retrieval_branch (P : Providers) (t : Nat) (q : String) :
    ¬("retrieve" ∈ (executeT P t q).2 ∧ "wiki_search" ∈ (executeT P t q).2) ∧
    ((∃ dest, route_question P q = .ok dest) →
      "retrieve" ∈ (executeT P t q).2 ∨ "wiki_search" ∈ (executeT P t q).2) ∧
    ((executeT P t q).1.route = some "vectorstore" →
      "retrieve" ∈ (executeT P t q).2 ∧ "wiki_search" ∉ (executeT P t q).2 ∧
      P.retrieveDocs q = .ok (executeT P t q).1.documents) ∧
    ((executeT P t q).1.route = some "wikipedia" →
      "wiki_search" ∈ (executeT P t q).2 ∧ "retrieve" ∉ (executeT P t q).2 ∧
      (executeT P t q).1.documents = (wikiSearchNode P q).1) ∧
    ("retrieve" ∈ (executeT P t q).2 →
      (executeT P t q).1.route = some "vectorstore" ∨ (executeT P t q).1.route = some "error") ∧
    ("wiki_search" ∈ (executeT P t q).2 →
      (executeT P t q).1.route = some "wikipedia" ∨ (executeT P t q).1.route = some "error") ∧
    (∀ docs, "retrieve" ∈ (executeT P t q).2 → P.retrieveDocs q = .ok docs →
      (executeT P t q).1.documents = docs ∧
      (∀ gen, generate_response P q docs = .ok gen →
        (executeT P t q).1.route = some "vectorstore" ∧
        (executeT P t q).1.generation = gen) ∧
      (∀ e, generate_response P q docs = .error e →
        (executeT P t q).1.route = some "error" ∧
        (executeT P t q).1.generation = "Error executing query: " ++ e)) ∧
    ("wiki_search" ∈ (executeT P t q).2 →
      (executeT P t q).1.documents = (wikiSearchNode P q).1 ∧
      (∀ gen, generate_response P q (wikiSearchNode P q).1 = .ok gen →
        (executeT P t q).1.route = some "wikipedia" ∧
        (executeT P t q).1.generation = gen) ∧
      (∀ e, generate_response P q (wikiSearchNode P q).1 = .error e →
        (executeT P t q).1.route = some "error" ∧
        (executeT P t q).1.generation = "Error executing query: " ++ e)) := by
  unfold executeT
  cases hr : route_question P q with
  | error e => simp
  | ok dest =>
      dsimp only
      split
      · unfold afterRetrieval
        cases hg : generate_response P q (wikiSearchNode P q).1 with
        | error e => simp [hg]
        | ok gen => simp [hg, wikiSearchNode_route]
      · cases hret : retrieveNode P q with
        | error e =>
            have hd : ∃ err, P.retrieveDocs q = .error err := by
              unfold retrieveNode at hret
              cases hd2 : P.retrieveDocs q with
              | error err => exact ⟨err, rfl⟩
              | ok docs => rw [hd2] at hret; simp [Except.map] at hret
            obtain ⟨err, hd⟩ := hd
            simp [hd]
        | ok out =>
            obtain ⟨documents, rt⟩ := out
            have hrd : P.retrieveDocs q = .ok documents ∧ rt = "vectorstore" := by
              unfold retrieveNode at hret
              cases hd : P.retrieveDocs q with
              | error e => rw [hd] at hret; simp [Except.map] at hret
              | ok docs =>
                  rw [hd] at hret; simp [Except.map] at hret
                  exact ⟨by rw [hret.1], hret.2.symm⟩
            unfold afterRetrieval
            cases hg : generate_response P q documents with
            | error e => simp [hg, hrd.1]
            | ok gen => simp [hg, hrd.1, hrd.2]

/-- C2 witness: on a fully successful Wikipedia-routed run the
wiki_search node is the visited branch, the result's documents are that
node's bundle, the route label is "wikipedia", and the answer is the
generator's output. -/
theorem exactly_one_retrieval_branch_witness :
    "wiki_search" ∈ (executeT wikiOkProviders 0 "Who is Elon Musk?").2 ∧
    (executeT wikiOkProviders 0 "Who is Elon Musk?").1.documents =
      (wikiSearchNode wikiOkProviders "Who is Elon Musk?").1 ∧
    (executeT wikiOkProviders 0 "Who is Elon Musk?").1.route = some "wikipedia" ∧
    (executeT wikiOkProviders 0 "Who is Elon Musk?").1.generation =
      "He is an entrepreneur." := by
  have h := exactly_one_retrieval_branch wikiOkProviders 0 "Who is Elon Musk?"
  have hroute : (executeT wikiOkProviders 0 "Who is Elon Musk?").1.route = some "wikipedia" := by
    decide
  have hmem := (h.2.2.2.1 hroute).1
  exact ⟨hmem, (h.2.2.2.1 hroute).2.2, hroute,
    ((h.2.2.2.2.2.2.2 hmem).2.1 "He is an entrepreneur." rfl).2⟩

/-- C3: the generation-stage context is built from at most the first
five passages of the bundle: formatContext only depends on the first
five documents, and on a bundle of eight passages the prompt context is
exactly passages one through five in bundle order, each labeled with
its 1-based ordinal. -/
theorem generation_context_first_five :
    (∀ documents : List Doc, formatContext documents = formatContext (documents.take 5)) ∧
    (∀ d1 d2 d3 d4 d5 d6 d7 d8 : Doc,
      formatContext [d1, d2, d3, d4, d5, d6, d7, d8] =
        String.intercalate "\n\n"
          ["Document 1:\n" ++ d1.page_content,
           "Document 2:\n" ++ d2.page_content,
           "Document 3:\n" ++ d3.page_content,
           "Document 4:\n" ++ d4.page_content,
           "Document 5:\n" ++ d5.page_content]) := by
  constructor
  · intro documents
    simp [formatContext, List.take_take]
  · intro d1 d2 d3 d4 d5 d6 d7 d8
    simp only [formatContext, List.take, List.enum, List.enumFrom, List.map]
    have e1 : "Document " ++ toString (1:Nat) ++ ":\n" = "Document 1:\n" := by decide
    have e2 : "Document " ++ toString (2:Nat) ++ ":\n" = "Document 2:\n" := by decide
    have e3 : "Document " ++ toString (3:Nat) ++ ":\n" = "Document 3:\n" := by decide
    have e4 : "Document " ++ toString (4:Nat) ++ ":\n" = "Document 4:\n" := by decide
    have e5 : "Document " ++ toString (5:Nat) ++ ":\n" = "Document 5:\n" := by decide
    norm_num
    rw [e1, e2, e3, e4, e5]

/-- C4: when the run is routed to Wikipedia and the lookup raises while
generation succeeds with a non-empty answer, the stage substitutes the
single no-results placeholder passage, execution continues into the
generate node, and the final result is non-error: route "wikipedia"
(not the "error" sentinel), the generator's answer, and no error entry
in the result dictionary. -/
theorem wiki_failure_degrades_gracefully (P : Providers) (t : Nat) (q e ans : String)
    (hc : P.classify q = .ok "wiki_search")
    (hw : P.wikiInvoke q = .error e)
    (hg : P.genChain (formatContext [wikiPlaceholder e]) q = .ok ans)
    (hne : ans ≠ "") :
    (executeT P t q).1.route = some "wikipedia" ∧
    (executeT P t q).1.documents = [wikiPlaceholder e] ∧
    (executeT P t q).1.generation = ans ∧
    (executeT P t q).1.generation ≠ "" ∧
    (executeT P t q).1.getField "error" = none ∧
    "generate" ∈ (executeT P t q).2 := by
  have hroute : route_question P q = .ok "wiki_search" := by
    unfold route_question; rw [hc]; rfl
  have hwiki : wikiSearchNode P q = ([wikiPlaceholder e], "wikipedia") := by
    unfold wikiSearchNode; rw [hw]
  have hgen : generate_response P q [wikiPlaceholder e] = .ok ans := by
    unfold generate_response; exact hg
  unfold executeT
  rw [hroute]
  simp only [reduceIte, hwiki, afterRetrieval, hgen]
  simp [ExecResult.getField, hne]

/-- C4 witness: a concrete Wikipedia-routed run whose lookup raises
still ends with route "wikipedia", the placeholder passage, the
generator's non-empty answer, no error entry, and a visited generate
node. -/
theorem wiki_failure_degrades_gracefully_witness :
    (executeT wikiFailProviders 0 "Who is Elon Musk?").1.route = some "wikipedia" ∧
    (executeT wikiFailProviders 0 "Who is Elon Musk?").1.documents =
      [wikiPlaceholder "Page not found"] ∧
    (executeT wikiFailProviders 0 "Who is Elon Musk?").1.generation =
      "I could not find information on that topic." ∧
    (executeT wikiFailProviders 0 "Who is Elon Musk?").1.getField "error" = none ∧
    "generate" ∈ (executeT wikiFailProviders 0 "Who is Elon Musk?").2 := by
  have h := wiki_failure_degrades_gracefully wikiFailProviders 0 "Who is Elon Musk?"
    "Page not found" "I could not find information on that topic." rfl rfl rfl (by decide)
  exact ⟨h.1, h.2.1, h.2.2.1, h.2.2.2.2.1, h.2.2.2.2.2⟩

/-- C5 counterexample: on a concrete classification failure the result
dictionary has no "error" entry at all (its lookup is none), so the
claimed non-empty error field does not exist; the failure is signaled
through the route sentinel instead, and no graph node ran. -/
theorem classification_failure_no_error_field :
    (executeT classifyFailProviders 0 "any question").1.getField "error" = none ∧
    (executeT classifyFailProviders 0 "any question").1.route = some "error" ∧
    (executeT classifyFailProviders 0 "any question").2 = [] := by decide

/-- C5 (amended): when the route classifier raises, the result carries
the "error" route sentinel and an error-descriptive answer string, no
documents, no graph node (neither retrieval nor generation) is invoked,
and the result dictionary has no separate error field — the failure is
recorded in the generation and route fields only. -/
theorem classification_failure_stops_pipeline (P : Providers) (t : Nat) (q e : String)
    (hc : P.classify q = .error e) :
    (executeT P t q).1.route = some "error" ∧
    (executeT P t q).1.generation = "Error executing query: " ++ e ∧
    (executeT P t q).1.documents = [] ∧
    (executeT P t q).2 = [] ∧
    (executeT P t q).1.getField "error" = none := by
  have hroute : route_question P q = .error e := by
    unfold route_question; rw [hc]; rfl
  unfold executeT
  rw [hroute]
  simp [ExecResult.getField]

/-- C5 witness: the amended behavior at a concrete failing classifier. -/
theorem classification_failure_stops_pipeline_witness :
    (executeT classifyFailProviders 0 "q").1.route = some "error" ∧
    (executeT classifyFailProviders 0 "q").1.generation =
      "Error executing query: " ++ "APIConnectionError: provider unreachable" ∧
    (executeT classifyFailProviders 0 "q").1.documents = [] ∧
    (executeT classifyFailProviders 0 "q").2 = [] ∧
    (executeT classifyFailProviders 0 "q").1.getField "error" = none :=
  classification_failure_stops_pipeline classifyFailProviders 0 "q"
    "APIConnectionError: provider unreachable" rfl

/-- C6 counterexample: a concrete run where classification and primary
retrieval succeed and generation then raises: the retrieve node ran and
its documents are retained, yet the route is overwritten with the
"error" sentinel instead of being retained as "vectorstore" — refuting
the claim that the route already gathered is kept unchanged. -/
theorem generation_failure_route_overwritten :
    "retrieve" ∈ (executeT retrieveOkGenFailProviders 0 "What are the types of agent memory?").2 ∧
    (executeT retrieveOkGenFailProviders 0 "What are the types of agent memory?").1.documents =
      [⟨"Agent memory has several types."⟩] ∧
    (executeT retrieveOkGenFailProviders 0 "What are the types of agent memory?").1.route ≠
      some "vectorstore" ∧
    (executeT retrieveOkGenFailProviders 0 "What are the types of agent memory?").1.route =
      some "error" := by decide

/-- C6 (amended): for every execution in which generation fails after
classification and the selected retrieval stage completed — whether
that stage was the primary retrieve (any non-"wiki_search"
classification with a successful retriever call) or the secondary
wiki_search (whose bundle is always produced) — the result keeps the
context bundle gathered by the completed retrieval stage and records
an error-descriptive answer, but the route is overwritten with the
"error" sentinel rather than retained; there is still no separate
error field. -/
theorem generation_failure_keeps_documents (P : Providers) (t : Nat) (q e : String)
    (documents : List Doc)
    (hbranch : (P.classify q = .ok "wiki_search" ∧ documents = (wikiSearchNode P q).1) ∨
      (∃ s, P.classify q = .ok s ∧ s ≠ "wiki_search" ∧ P.retrieveDocs q = .ok documents))
    (hg : P.genChain (formatContext documents) q = .error e) :
    (executeT P t q).1.documents = documents ∧
    (executeT P t q).1.generation = "Error executing query: " ++ e ∧
    (executeT P t q).1.route = some "error" ∧
    (executeT P t q).1.getField "error" = none := by
  have hgen : generate_response P q documents = .error e := by
    unfold generate_response; exact hg
  rcases hbranch with ⟨hc, hdocs⟩ | ⟨s, hc, hs, hr⟩
  · have hroute : route_question P q = .ok "wiki_search" := by
      unfold route_question; rw [hc]; rfl
    subst hdocs
    unfold executeT
    rw [hroute]
    simp only [reduceIte, afterRetrieval, hgen]
    simp [ExecResult.getField]
  · have hroute : route_question P q = .ok "vectorstore" := by
      unfold route_question; rw [hc]; simp [Except.map, hs]
    have hret : retrieveNode P q = .ok (documents, "vectorstore") := by
      unfold retrieveNode; rw [hr]; rfl
    unfold executeT
    rw [hroute]
    simp only [reduceIte, hret, afterRetrieval, hgen]
    simp [ExecResult.getField]

/-- C6 witness: the amended behavior at a concrete failing generator,
once on the primary branch and once on the wikipedia branch. -/
theorem generation_failure_keeps_documents_witness :
    (executeT retrieveOkGenFailProviders 0 "q").1.documents =
      [⟨"Agent memory has several types."⟩] ∧
    (executeT retrieveOkGenFailProviders 0 "q").1.generation =
      "Error executing query: " ++ "InternalServerError" ∧
    (executeT retrieveOkGenFailProviders 0 "q").1.route = some "error" ∧
    (executeT wikiOkGenFailProviders 0 "q").1.documents =
      [⟨"Wikipedia summary text."⟩] ∧
    (executeT wikiOkGenFailProviders 0 "q").1.generation =
      "Error executing query: " ++ "InternalServerError" ∧
    (executeT wikiOkGenFailProviders 0 "q").1.route = some "error" := by
  have h1 := generation_failure_keeps_documents retrieveOkGenFailProviders 0 "q"
    "InternalServerError" [⟨"Agent memory has several types."⟩]
    (Or.inr ⟨"vectorstore", rfl, by decide, rfl⟩) rfl
  have h2 := generation_failure_keeps_documents wikiOkGenFailProviders 0 "q"
    "InternalServerError" [⟨"Wikipedia summary text."⟩]
    (Or.inl ⟨rfl, rfl⟩) rfl
  exact ⟨h1.1, h1.2.1, h1.2.2.1, h2.1, h2.2.1, h2.2.2.1⟩

/-- C7: for any classifier response, route_question returns
"wiki_search" exactly when the classifier's datasource equals
"wiki_search" and the safe default "vectorstore" for every other value
(including values outside the two-member enum). -/
theorem route_question_safe_default (P : Providers) (q s : String)
    (hc : P.classify q = .ok s) :
    (route_question P q = .ok "wiki_search" ↔ s = "wiki_search") ∧
    (s ≠ "wiki_search" → route_question P q = .ok "vectorstore") := by
  unfold route_question
  rw [hc]
  constructor
  · by_cases h : s = "wiki_search" <;> simp [h, Except.map]
  · intro h
    simp [h, Except.map]

/-- C7 witness: a classifier answering the out-of-enum value
"web_search" is routed to the vector store. -/
theorem route_question_safe_default_witness :
    route_question garbageClassifierProviders "q" = .ok "vectorstore" :=
  (route_question_safe_default garbageClassifierProviders "q" "web_search" rfl).2 (by decide)

/-- C8 counterexample: two requests that differ only in their source
field receive different routing explanations from the mock endpoint, so
the endpoint's output is not independent of its input. -/
theorem mock_query_routing_reason_depends_on_source :
    (execute_query vectorRequest "deadbeef" 0).routing_reason ≠
      (execute_query wikipediaRequest "deadbeef" 0).routing_reason ∧
    (execute_query vectorRequest "deadbeef" 0).routing_reason =
      "mock: scaffold route to vector (demo)" ∧
    (execute_query wikipediaRequest "deadbeef" 0).routing_reason =
      "mock: scaffold route to wikipedia (demo)" := by decide

/-- C8 (amended): for any two requests processed with the same fresh id
and measured time, the mock endpoint returns the same response text,
the same sources, the same metrics and the same id regardless of query
text, user id, source or options; the routing explanation alone varies,
and it coincides exactly when the two requests carry the same source
value — the output depends on the input only through the source echoed
in routing_reason. -/
theorem mock_query_input_independence (r1 r2 : QueryRequest) (u : String) (t : Nat) :
    (execute_query r1 u t).response = (execute_query r2 u t).response ∧
    (execute_query r1 u t).sources = (execute_query r2 u t).sources ∧
    (execute_query r1 u t).metrics = (execute_query r2 u t).metrics ∧
    (execute_query r1 u t).id = (execute_query r2 u t).id ∧
    ((execute_query r1 u t).routing_reason = (execute_query r2 u t).routing_reason ↔
      r1.source = r2.source) := by
  refine ⟨rfl, rfl, rfl, rfl, ?_⟩
  obtain ⟨q1, u1, s1, o1⟩ := r1
  obtain ⟨q2, u2, s2, o2⟩ := r2
  cases s1 <;> cases s2 <;> simp [execute_query, QuerySource.value]

/-- C8 witness: two concrete requests with different source values
still share response text, sources and metrics. -/
theorem mock_query_input_independence_witness :
    (execute_query vectorRequest "deadbeef" 0).response =
      (execute_query wikipediaRequest "deadbeef" 0).response ∧
    (execute_query vectorRequest "deadbeef" 0).sources =
      (execute_query wikipediaRequest "deadbeef" 0).sources ∧
    (execute_query vectorRequest "deadbeef" 0).metrics =
      (execute_query wikipediaRequest "deadbeef" 0).metrics := by
  have h := mock_query_input_independence vectorRequest wikipediaRequest "deadbeef" 0
  exact ⟨h.1, h.2.1, h.2.2.1⟩

/-- C9: an accepted request necessarily has a query of length 1..2000
characters and a source (when present) inside the four-member
QuerySource enum; and any request with an empty query, an over-length
query, or an unknown source value fails validation, so the endpoint
boundary rejects it and the execute_query handler never runs. -/
theorem query_request_validation_bounds (raw : RawQueryRequest) (u : String) (t : Nat) :
    ((QueryRequest.validate raw).isSome = true →
      1 ≤ raw.query.length ∧ raw.query.length ≤ 2000 ∧
      (∀ s, raw.source = some s → (parseQuerySource s).isSome = true)) ∧
    ((raw.query.length = 0 ∨ raw.query.length > 2000 ∨
      (∃ s, raw.source = some s ∧ parseQuerySource s = none)) →
      QueryRequest.validate raw = none ∧ handle_query raw u t = none) := by
  constructor
  · intro h
    unfold QueryRequest.validate at h
    split at h
    · rename_i hlen
      refine ⟨hlen.1, hlen.2, ?_⟩
      intro s hs
      rw [hs] at h
      simp only [Option.elim] at h
      cases hp : parseQuerySource s with
      | none => rw [hp] at h; simp at h
      | some src => simp
    · simp at h
  · intro h
    have hv : QueryRequest.validate raw = none := by
      unfold QueryRequest.validate
      rcases h with h0 | hbig | ⟨s, hs, hp⟩
      · simp [h0]
      · have : ¬(1 ≤ raw.query.length ∧ raw.query.length ≤ 2000) := by omega
        simp [this]
      · split
        · rw [hs]; simp only [Option.elim]; rw [hp]
        · rfl
    exact ⟨hv, by unfold handle_query; rw [hv]; rfl⟩

/-- C9 witness: the empty query is rejected and the handler never runs. -/
theorem query_request_validation_bounds_witness :
    QueryRequest.validate { query := "", user_id := none, source := none, options := none } =
      none ∧
    handle_query { query := "", user_id := none, source := none, options := none }
      "deadbeef" 0 = none :=
  (query_request_validation_bounds
    { query := "", user_id := none, source := none, options := none } "deadbeef" 0).2
    (Or.inl (by decide))

/-- C10: once the first get_settings call has populated the lru cache,
every later call returns that exact cached Settings value — even if the
process environment has changed in between — so the mock-mode status
and all configuration fields observed by the query and health handlers
are identical across calls; Settings values are immutable by
construction. -/
theorem get_settings_cached_idempotent (env env2 : Env) (s : Settings)
    (h : Settings.ofEnv env = .ok s) :
    (get_settings none env).1 = .ok s ∧
    (get_settings none env).2 = some s ∧
    (get_settings (get_settings none env).2 env2).1 = .ok s ∧
    (get_settings (get_settings none env).2 env2).2 = some s ∧
    (∀ s2, (get_settings (get_settings none env).2 env2).1 = .ok s2 →
      s2.get_mock_status = s.get_mock_status ∧ s2.app_version = s.app_version ∧
      s2.environment = s.environment ∧ s2 = s) := by
  have h1 : get_settings none env = (.ok s, some s) := by
    unfold get_settings; rw [h]
  rw [h1]
  refine ⟨rfl, rfl, rfl, rfl, ?_⟩
  intro s2 h2
  unfold get_settings at h2
  simp at h2
  rw [h2]
  exact ⟨rfl, rfl, rfl, rfl⟩

/-- C10 witness: with an empty environment both the first and the
second call return the default Settings and the cache is stable. -/
theorem get_settings_cached_idempotent_witness :
    (get_settings none emptyEnv).1 = .ok ({} : Settings) ∧
    (get_settings (get_settings none emptyEnv).2 emptyEnv).1 = .ok ({} : Settings) ∧
    (get_settings (get_settings none emptyEnv).2 emptyEnv).2 = some ({} : Settings) := by
  have h := get_settings_cached_idempotent emptyEnv emptyEnv {} rfl
  exact ⟨h.1, h.2.2.1, h.2.2.2.1⟩
